import Mathlib

/-!
A shallow embedding of the seat-reservation core of the single-file Flask app
(`网页版.py`): the interval conflict engine (`overlaps`, `seat_status`), the
booking service (`api_book`, `cancel`), the check-in service (`scan`) and the
admin seat toggle (`admin_room` POST, here `set_seat_state`), together with
theorems settling the specification's claims about them.

Timestamps are modelled as integer minutes on a global timeline: the source
compares `datetime` values (and their ISO-8601 strings, whose lexicographic
order agrees with chronological order), a total order faithfully represented
by `Int`.  The uuid token is modelled as a natural number.
-/

/-- Booking status: the source stores one of the strings `'booked'`,
`'using'`, `'cancelled'` in the `status` column. -/
inductive Status where
  | booked
  | using
  | cancelled
deriving DecidableEq, Repr

/-- A row of the `users` table. -/
structure User where
  id : Nat
  username : String
  password : String
  is_admin : Bool
deriving DecidableEq, Repr

/-- A row of the `rooms` table. -/
structure Room where
  id : Nat
  name : String
  desc : String
deriving DecidableEq, Repr

/-- A row of the `seats` table. -/
structure Seat where
  id : Nat
  room_id : Nat
  label : String
  x : Int
  y : Int
  is_open : Bool
  note : String
deriving DecidableEq, Repr

/-- A row of the `bookings` table.  `start_dt`/`end_dt` are minutes on the
global timeline; `token` models the uuid string. -/
structure Booking where
  id : Nat
  user_id : Nat
  seat_id : Nat
  start_dt : Int
  end_dt : Int
  token : Nat
  status : Status
deriving DecidableEq, Repr

/-- The persistent store (the sqlite database `data.db`), rows in insertion
order. -/
structure Store where
  users : List User
  rooms : List Room
  seats : List Seat
  bookings : List Booking
deriving DecidableEq, Repr

/-- The rejection taxonomy of the spec; each constructor corresponds to one
error response of the source. -/
inductive Err where
  | AdminCannotBook
  | InvalidWindow
  | ActiveBookingExists
  | SeatUnavailable
  | SeatConflict
  | NotOwner
  | InvalidToken
  | OutsideWindow
  | AlreadyCheckedIn
deriving DecidableEq, Repr

/-- `overlaps(start1, end1, start2, end2)` (source lines 178–180): half-open
interval intersection test, `not (end1 <= start2 or end2 <= start1)`. -/
def overlaps (start1 end1 start2 end2 : Int) : Bool :=
  !(decide (end1 ≤ start2) || decide (end2 ≤ start1))

/-- The `minute` component of a timestamp measured in minutes
(`datetime.minute`). -/
def minute (t : Int) : Int := t.emod 60

/-- The seat's non-cancelled booking rows, in row order: the query
`SELECT * FROM bookings WHERE seat_id=? AND status != "cancelled"` used by
both `seat_status` and `api_book`. -/
def activeOn (sid : Nat) (bs : List Booking) : List Booking :=
  bs.filter (fun b => b.seat_id == sid && !(b.status == Status.cancelled))

/-- The user's non-cancelled bookings ending after `t`: the query of
`api_book`'s one-active-booking check (`user_id = ? AND status != 'cancelled'
AND end_dt > ?`). -/
def activeOfUser (uid : Nat) (t : Int) (bs : List Booking) : List Booking :=
  bs.filter (fun b =>
    b.user_id == uid && !(b.status == Status.cancelled) && decide (b.end_dt > t))

/-- The four display states a seat can take in `seat_status`. -/
inductive SeatState where
  | available
  | booked
  | using
  | closed
deriving DecidableEq, Repr

/-- The scan-and-break loop of `seat_status` (lines 272–284): walk the seat's
non-cancelled bookings in row order and classify at the first one whose
interval overlaps the query window. -/
def classify_scan (now start_dt end_dt : Int) : List Booking → SeatState
  | [] => SeatState.available
  | b :: rest =>
    if overlaps b.start_dt b.end_dt start_dt end_dt then
      if b.status = Status.using ∨ (b.start_dt ≤ now ∧ now < b.end_dt) then
        SeatState.using
      else
        SeatState.booked
    else classify_scan now start_dt end_dt rest

/-- Per-seat classification inside `seat_status` (lines 261–289): closed seats
short-circuit, otherwise the scan-and-break loop over the seat's non-cancelled
bookings decides. -/
def seat_status (s : Seat) (bookings : List Booking)
    (start_dt end_dt now : Int) : SeatState :=
  if !s.is_open then SeatState.closed
  else classify_scan now start_dt end_dt (activeOn s.id bookings)

/-- `uuid.uuid4()` at line 346: the draw of a globally-unique token, backed by
the `UNIQUE` column constraint; modelled as a deterministic fresh value, one
more than the largest token in use. -/
def freshToken (bs : List Booking) : Nat :=
  (bs.map Booking.token).foldr max 0 + 1

/-- The AUTOINCREMENT primary key assigned to the next `bookings` row. -/
def nextBookingId (bs : List Booking) : Nat :=
  (bs.map Booking.id).foldr max 0 + 1

/-- `api_book` (lines 294–353): the CreateBooking operation.  The caller's
session supplies `user_id` and `is_admin`; the wall clock supplies `now`.
Checks run in source order: admin ban, 30-minute grid, start < end, the
one-active-booking rule, seat existence and openness, then the per-seat
conflict loop; on success the new row is appended and returned. -/
def api_book (user_id : Nat) (is_admin : Bool) (seat_id : Nat)
    (start_dt end_dt now : Int) (st : Store) : Except Err (Store × Booking) :=
  if is_admin then Except.error Err.AdminCannotBook
  else if minute start_dt % 30 != 0 || minute end_dt % 30 != 0 then
    Except.error Err.InvalidWindow
  else if start_dt ≥ end_dt then Except.error Err.InvalidWindow
  else if !(activeOfUser user_id now st.bookings).isEmpty then
    Except.error Err.ActiveBookingExists
  else
    match st.seats.find? (fun s => s.id == seat_id) with
    | none => Except.error Err.SeatUnavailable
    | some seat =>
      if !seat.is_open then Except.error Err.SeatUnavailable
      else if (activeOn seat_id st.bookings).any (fun b =>
          overlaps b.start_dt b.end_dt start_dt end_dt) then
        Except.error Err.SeatConflict
      else
        let b : Booking :=
          { id := nextBookingId st.bookings, user_id := user_id,
            seat_id := seat_id, start_dt := start_dt, end_dt := end_dt,
            token := freshToken st.bookings, status := Status.booked }
        Except.ok ({ st with bookings := st.bookings ++ [b] }, b)

/-- The row update `UPDATE bookings SET status="cancelled" WHERE id=?`. -/
def setCancelled (bid : Nat) (b2 : Booking) : Booking :=
  if b2.id == bid then { b2 with status := Status.cancelled } else b2

/-- The row update `UPDATE bookings SET status="using" WHERE id=?`. -/
def setUsing (bid : Nat) (b2 : Booking) : Booking :=
  if b2.id == bid then { b2 with status := Status.using } else b2

/-- `cancel` (lines 363–372): cancel a booking.  Not-found and not-owner both
abort with 403, the spec's `NotOwner`; otherwise the row's status is set to
`cancelled` unconditionally. -/
def cancel (bid user_id : Nat) (st : Store) : Except Err Store :=
  match st.bookings.find? (fun b => b.id == bid) with
  | none => Except.error Err.NotOwner
  | some b =>
    if !(b.user_id == user_id) then Except.error Err.NotOwner
    else Except.ok { st with bookings := st.bookings.map (setCancelled bid) }

/-- `scan` (lines 392–411): check in with a token.  Token lookup, the
inclusive window test `start_dt <= now <= end_dt`, the already-using guard;
on success the row's status becomes `using` and the seat id is returned. -/
def scan (token : Nat) (now : Int) (st : Store) : Except Err (Nat × Store) :=
  match st.bookings.find? (fun b => b.token == token) with
  | none => Except.error Err.InvalidToken
  | some b =>
    if !(decide (b.start_dt ≤ now) && decide (now ≤ b.end_dt)) then
      Except.error Err.OutsideWindow
    else if b.status == Status.using then Except.error Err.AlreadyCheckedIn
    else Except.ok (b.seat_id, { st with bookings := st.bookings.map (setUsing b.id) })

/-- The POST branch of `admin_room` (lines 425–432): overwrite one seat's
`is_open` flag and `note` (`UPDATE seats SET is_open=?, note=? WHERE id=?`). -/
def set_seat_state (seat_id : Nat) (is_open : Bool) (note : String)
    (st : Store) : Store :=
  { st with seats := st.seats.map (fun s =>
      if s.id == seat_id then { s with is_open := is_open, note := note }
      else s) }

/-- One CreateBooking request: session identity, seat, window, call time. -/
structure BookReq where
  user_id : Nat
  is_admin : Bool
  seat_id : Nat
  start_dt : Int
  end_dt : Int
  now : Int
deriving DecidableEq, Repr

/-- Apply one request: the store advances on success, a rejection leaves it
unchanged. -/
def applyBook (st : Store) (r : BookReq) : Store :=
  match api_book r.user_id r.is_admin r.seat_id r.start_dt r.end_dt r.now st with
  | Except.ok (st2, _) => st2
  | Except.error _ => st

/-- Apply a sequence of CreateBooking requests in order. -/
def applyBooks (rs : List BookReq) (st : Store) : Store :=
  rs.foldl applyBook st

/-- Pairwise-disjointness of the non-cancelled bookings of every seat
(the §3 invariant). -/
def seatDisjoint (st : Store) : Prop :=
  ∀ sid : Nat, (activeOn sid st.bookings).Pairwise
    (fun b1 b2 => overlaps b1.start_dt b1.end_dt b2.start_dt b2.end_dt = false)

/-- The one-active-booking-per-user invariant at instant `t`. -/
def oneActive (t : Int) (st : Store) : Prop :=
  ∀ uid : Nat, (activeOfUser uid t st.bookings).length ≤ 1

/-- A small concrete store in the shape of the seeded database: two students,
one room, one open seat, no bookings yet. -/
def demoStore : Store :=
  { users := [⟨1, "student1", "pwd1", false⟩, ⟨2, "student2", "pwd2", false⟩],
    rooms := [⟨1, "Room A", "First floor, quiet"⟩],
    seats := [⟨1, 1, "A-1", 100, 60, true, ""⟩],
    bookings := [] }

/-- `demoStore` after student 2 booked seat 1 for the window `[480, 540)`
(08:00–09:00 as minutes of the day). -/
def demoStore2 : Store :=
  { demoStore with bookings := [⟨1, 2, 1, 480, 540, 1, Status.booked⟩] }

/-- `demoStore` holding one cancelled booking of student 2 on seat 1. -/
def demoStoreCancelled : Store :=
  { demoStore with bookings := [⟨1, 2, 1, 480, 540, 1, Status.cancelled⟩] }

/-- `demoStore` holding one checked-in (`using`) booking of student 2. -/
def demoStoreUsing : Store :=
  { demoStore with bookings := [⟨1, 2, 1, 480, 540, 1, Status.using⟩] }

/-- The booking `api_book` creates for student 1 on seat 1, window
`[480, 540)`, starting from `demoStore`. -/
def demoBooked : Booking := ⟨1, 1, 1, 480, 540, 1, Status.booked⟩

/-- `demoStore` after that call. -/
def demoStoreBooked : Store := { demoStore with bookings := [demoBooked] }

lemma overlaps_symm (a b c d : Int) : overlaps a b c d = overlaps c d a b := by
  simp [overlaps, Bool.or_comm]

lemma mem_activeOn {b : Booking} {sid : Nat} {bs : List Booking} :
    b ∈ activeOn sid bs ↔
      b ∈ bs ∧ b.seat_id = sid ∧ b.status ≠ Status.cancelled := by
  simp [activeOn, List.mem_filter, and_assoc]

lemma mem_activeOfUser {b : Booking} {uid : Nat} {t : Int} {bs : List Booking} :
    b ∈ activeOfUser uid t bs ↔
      b ∈ bs ∧ b.user_id = uid ∧ b.status ≠ Status.cancelled ∧ t < b.end_dt := by
  simp [activeOfUser, List.mem_filter, and_assoc]

/-- Inversion of a successful `api_book`: every check passed and the result is
the old store with the new row appended. -/
lemma api_book_ok {user_id : Nat} {is_admin : Bool} {seat_id : Nat}
    {start_dt end_dt now : Int} {st st2 : Store} {b : Booking}
    (h : api_book user_id is_admin seat_id start_dt end_dt now st =
      Except.ok (st2, b)) :
    is_admin = false ∧
    (minute start_dt % 30 != 0 || minute end_dt % 30 != 0) = false ∧
    start_dt < end_dt ∧
    (activeOfUser user_id now st.bookings).isEmpty = true ∧
    (∃ seat, st.seats.find? (fun s => s.id == seat_id) = some seat ∧
      seat.is_open = true) ∧
    (activeOn seat_id st.bookings).any
      (fun b2 => overlaps b2.start_dt b2.end_dt start_dt end_dt) = false ∧
    b = { id := nextBookingId st.bookings, user_id := user_id,
          seat_id := seat_id, start_dt := start_dt, end_dt := end_dt,
          token := freshToken st.bookings, status := Status.booked } ∧
    st2 = { st with bookings := st.bookings ++ [b] } := by
  unfold api_book at h
  split at h
  · cases h
  next hadm =>
  split at h
  · cases h
  next hmin =>
  split at h
  · cases h
  next hlt =>
  split at h
  · cases h
  next hact =>
  split at h
  · cases h
  next seat hfind =>
  split at h
  · cases h
  next hopen =>
  split at h
  · cases h
  next hconf =>
  simp only [Except.ok.injEq, Prod.mk.injEq] at h
  obtain ⟨hst2, hb⟩ := h
  refine ⟨by simpa using hadm, by simpa using hmin, by omega,
    by simpa using hact, ⟨seat, hfind, by simpa using hopen⟩,
    by simpa using hconf, hb.symm, ?_⟩
  rw [← hst2, hb]

lemma activeOn_append (sid : Nat) (l1 l2 : List Booking) :
    activeOn sid (l1 ++ l2) = activeOn sid l1 ++ activeOn sid l2 := by
  simp [activeOn, List.filter_append]

lemma activeOfUser_append (uid : Nat) (t : Int) (l1 l2 : List Booking) :
    activeOfUser uid t (l1 ++ l2) =
      activeOfUser uid t l1 ++ activeOfUser uid t l2 := by
  simp [activeOfUser, List.filter_append]

/-- When every check up to the conflict loop passes, `api_book` succeeds and
appends exactly the new row. -/
lemma api_book_ok_of_checks {user_id seat_id : Nat}
    {start_dt end_dt now : Int} {st : Store} {seat : Seat}
    (hmin : (minute start_dt % 30 != 0 || minute end_dt % 30 != 0) = false)
    (hlt : start_dt < end_dt)
    (hact : (activeOfUser user_id now st.bookings).isEmpty = true)
    (hfind : st.seats.find? (fun s => s.id == seat_id) = some seat)
    (hopen : seat.is_open = true)
    (hconf : (activeOn seat_id st.bookings).any
      (fun b2 => overlaps b2.start_dt b2.end_dt start_dt end_dt) = false) :
    api_book user_id false seat_id start_dt end_dt now st =
      Except.ok
        ({ st with bookings := st.bookings ++
            [{ id := nextBookingId st.bookings, user_id := user_id,
               seat_id := seat_id, start_dt := start_dt, end_dt := end_dt,
               token := freshToken st.bookings, status := Status.booked }] },
         { id := nextBookingId st.bookings, user_id := user_id,
           seat_id := seat_id, start_dt := start_dt, end_dt := end_dt,
           token := freshToken st.bookings, status := Status.booked }) := by
  unfold api_book
  rw [hmin, hfind]
  simp [hlt, hlt.not_le, hact, hopen, hconf]

/-- When the pre-conflict checks pass and some non-cancelled booking on the
seat overlaps the window, `api_book` rejects with `SeatConflict`. -/
lemma api_book_conflict {user_id seat_id : Nat}
    {start_dt end_dt now : Int} {st : Store} {seat : Seat}
    (hmin : (minute start_dt % 30 != 0 || minute end_dt % 30 != 0) = false)
    (hlt : start_dt < end_dt)
    (hact : (activeOfUser user_id now st.bookings).isEmpty = true)
    (hfind : st.seats.find? (fun s => s.id == seat_id) = some seat)
    (hopen : seat.is_open = true)
    (hconf : (activeOn seat_id st.bookings).any
      (fun b2 => overlaps b2.start_dt b2.end_dt start_dt end_dt) = true) :
    api_book user_id false seat_id start_dt end_dt now st =
      Except.error Err.SeatConflict := by
  unfold api_book
  rw [hmin, hfind]
  simp [hlt, hlt.not_le, hact, hopen, hconf]

/-- When the window checks pass and the user has an active booking,
`api_book` rejects with `ActiveBookingExists`. -/
lemma api_book_active {user_id seat_id : Nat}
    {start_dt end_dt now : Int} {st : Store}
    (hmin : (minute start_dt % 30 != 0 || minute end_dt % 30 != 0) = false)
    (hlt : start_dt < end_dt)
    (hact : (activeOfUser user_id now st.bookings).isEmpty = false) :
    api_book user_id false seat_id start_dt end_dt now st =
      Except.error Err.ActiveBookingExists := by
  unfold api_book
  rw [hmin]
  simp [hlt, hlt.not_le, hact]

/-- A successful `api_book` keeps every seat's non-cancelled bookings
pairwise disjoint (one step). -/
lemma seatDisjoint_applyBook (st : Store) (r : BookReq)
    (h : seatDisjoint st) : seatDisjoint (applyBook st r) := by
  unfold applyBook
  split
  next st2 b heq =>
    obtain ⟨-, -, -, -, -, hconf, hb, hst2⟩ := api_book_ok heq
    subst hst2
    intro sid
    have hno : ∀ x ∈ activeOn r.seat_id st.bookings,
        overlaps x.start_dt x.end_dt r.start_dt r.end_dt = false := by
      intro x hx
      by_contra hcontra
      rw [Bool.not_eq_false] at hcontra
      have hany : (activeOn r.seat_id st.bookings).any
          (fun b2 => overlaps b2.start_dt b2.end_dt r.start_dt r.end_dt) = true :=
        List.any_eq_true.mpr ⟨x, hx, hcontra⟩
      rw [hconf] at hany
      exact Bool.false_ne_true hany
    show (activeOn sid (st.bookings ++ [b])).Pairwise _
    rw [activeOn_append, List.pairwise_append]
    refine ⟨h sid, ?_, ?_⟩
    · unfold activeOn
      simp only [List.filter]
      split <;> simp
    · intro a ha b' hb'
      obtain ⟨hmem, hseat, -⟩ := mem_activeOn.mp hb'
      simp only [List.mem_singleton] at hmem
      subst hmem
      subst hb
      simp only at hseat
      subst hseat
      exact hno a ha
  next e heq => exact h

/-- Any sequence of CreateBooking requests keeps every seat's non-cancelled
bookings pairwise disjoint. -/
lemma seatDisjoint_applyBooks (rs : List BookReq) (st : Store)
    (h : seatDisjoint st) : seatDisjoint (applyBooks rs st) := by
  induction rs generalizing st with
  | nil => exact h
  | cons r rs ih =>
    show seatDisjoint (applyBooks rs (applyBook st r))
    exact ih _ (seatDisjoint_applyBook st r h)

/-- A CreateBooking call at time `r.now` keeps the one-active-booking
invariant at every instant `t ≥ r.now`. -/
lemma oneActive_applyBook (st : Store) (r : BookReq) (t : Int)
    (hle : r.now ≤ t) (h : oneActive t st) : oneActive t (applyBook st r) := by
  unfold applyBook
  split
  next st2 b heq =>
    obtain ⟨-, -, -, hact, -, -, hb, hst2⟩ := api_book_ok heq
    subst hst2
    intro uid
    show (activeOfUser uid t (st.bookings ++ [b])).length ≤ 1
    rw [activeOfUser_append]
    have hsingle : (activeOfUser uid t [b]).length ≤ 1 := by
      unfold activeOfUser
      simp only [List.filter]
      split <;> simp
    by_cases huid : uid = r.user_id
    · have hempty : activeOfUser uid t st.bookings = [] := by
        rw [List.eq_nil_iff_forall_not_mem]
        intro x hx
        obtain ⟨hxm, hxu, hxs, hxe⟩ := mem_activeOfUser.mp hx
        have hx2 : x ∈ activeOfUser r.user_id r.now st.bookings :=
          mem_activeOfUser.mpr ⟨hxm, hxu.trans huid, hxs, by omega⟩
        rw [List.isEmpty_iff.mp hact] at hx2
        exact List.not_mem_nil x hx2
      rw [hempty]
      simpa using hsingle
    · have hempty : activeOfUser uid t [b] = [] := by
        rw [List.eq_nil_iff_forall_not_mem]
        intro x hx
        obtain ⟨hxm, hxu, -, -⟩ := mem_activeOfUser.mp hx
        simp only [List.mem_singleton] at hxm
        subst hxm
        subst hb
        simp only at hxu
        exact huid hxu.symm
      rw [hempty, List.append_nil]
      exact h uid
  next e heq => exact h

lemma le_foldr_max {n : Nat} {l : List Nat} (h : n ∈ l) :
    n ≤ l.foldr max 0 := by
  induction l with
  | nil => cases h
  | cons a l ih =>
    rcases List.mem_cons.mp h with h1 | h2
    · subst h1
      exact Nat.le_max_left _ _
    · exact le_trans (ih h2) (Nat.le_max_right _ _)

/-- The generated token differs from every token already in the store. -/
lemma token_ne_freshToken {b : Booking} {bs : List Booking} (h : b ∈ bs) :
    b.token ≠ freshToken bs := by
  have hle : b.token ≤ (bs.map Booking.token).foldr max 0 :=
    le_foldr_max (List.mem_map_of_mem Booking.token h)
  unfold freshToken
  omega

/-- The scan-and-break loop classifies by the first booking in row order that
overlaps the query window. -/
lemma classify_scan_eq_find (now ws we : Int) (l : List Booking) :
    classify_scan now ws we l =
      match l.find? (fun b => overlaps b.start_dt b.end_dt ws we) with
      | none => SeatState.available
      | some b =>
        if b.status = Status.using ∨ (b.start_dt ≤ now ∧ now < b.end_dt) then
          SeatState.using
        else SeatState.booked := by
  induction l with
  | nil => rfl
  | cons b l ih =>
    unfold classify_scan
    rcases hov : overlaps b.start_dt b.end_dt ws we with _ | _
    · have hfind : List.find? (fun b2 => overlaps b2.start_dt b2.end_dt ws we) (b :: l) =
          List.find? (fun b2 => overlaps b2.start_dt b2.end_dt ws we) l := by
        simp [List.find?, hov]
      rw [if_neg (by simp), ih, hfind]
    · have hfind : List.find? (fun b2 => overlaps b2.start_dt b2.end_dt ws we) (b :: l) =
          some b := by
        simp [List.find?, hov]
      rw [if_pos rfl, hfind]

/-- The loop answers `available` exactly when no booking in the list overlaps
the query window. -/
lemma classify_scan_available_iff (now ws we : Int) (l : List Booking) :
    classify_scan now ws we l = SeatState.available ↔
      ∀ b ∈ l, overlaps b.start_dt b.end_dt ws we = false := by
  induction l with
  | nil => simp [classify_scan]
  | cons b l ih =>
    unfold classify_scan
    rcases hov : overlaps b.start_dt b.end_dt ws we with _ | _
    · rw [if_neg (by simp), ih]
      constructor
      · intro hall b2 hb2
        rcases List.mem_cons.mp hb2 with h1 | h2
        · subst h1
          exact hov
        · exact hall b2 h2
      · intro hall b2 hb2
        exact hall b2 (List.mem_cons_of_mem _ hb2)
    · rw [if_pos rfl]
      constructor
      · intro hcl
        exfalso
        revert hcl
        split <;> simp
      · intro hall
        exact absurd (hall b (List.mem_cons_self _ _)) (by simp [hov])

/-- C2: `overlaps` answers true exactly when the half-open intervals
intersect, i.e. NOT(`aEnd ≤ bStart` OR `bEnd ≤ aStart`); in particular
boundary-touching windows (`aEnd = bStart`) never overlap. -/
theorem c2_overlaps_iff :
    (∀ aStart aEnd bStart bEnd : Int,
      overlaps aStart aEnd bStart bEnd = true ↔
        ¬(aEnd ≤ bStart ∨ bEnd ≤ aStart)) ∧
    (∀ aStart aEnd bEnd : Int, overlaps aStart aEnd aEnd bEnd = false) := by
  constructor
  · intro a b c d
    simp [overlaps]
  · intro a b d
    simp [overlaps]

/-- C5: `seat_status` answers `closed` for an administratively closed seat
regardless of bookings; for an open seat the first non-cancelled booking in
row order whose interval overlaps the window decides (`using` when its status
is `using` or `now` lies in its own interval, else `booked`); and the answer
is `available` exactly when no non-cancelled booking of the seat overlaps the
window. -/
theorem c5_seat_status (s : Seat) (bookings : List Booking)
    (ws we now : Int) :
    (s.is_open = false → seat_status s bookings ws we now = SeatState.closed) ∧
    (s.is_open = true →
      seat_status s bookings ws we now =
        match (activeOn s.id bookings).find?
            (fun b => overlaps b.start_dt b.end_dt ws we) with
        | none => SeatState.available
        | some b =>
          if b.status = Status.using ∨ (b.start_dt ≤ now ∧ now < b.end_dt) then
            SeatState.using
          else SeatState.booked) ∧
    (s.is_open = true →
      (seat_status s bookings ws we now = SeatState.available ↔
        ∀ b ∈ bookings, b.seat_id = s.id → b.status ≠ Status.cancelled →
          overlaps b.start_dt b.end_dt ws we = false)) := by
  refine ⟨?_, ?_, ?_⟩
  · intro hcl
    unfold seat_status
    rw [if_pos (by simp [hcl])]
  · intro hop
    unfold seat_status
    rw [if_neg (by simp [hop]), classify_scan_eq_find]
  · intro hop
    unfold seat_status
    rw [if_neg (by simp [hop]), classify_scan_available_iff]
    constructor
    · intro hall b hb hsid hst
      exact hall b (mem_activeOn.mpr ⟨hb, hsid, hst⟩)
    · intro hall b hb
      obtain ⟨h1, h2, h3⟩ := mem_activeOn.mp hb
      exact hall b h1 h2 h3

theorem c5_seat_status_witness :
    seat_status ⟨2, 1, "A-2", 0, 0, false, "repair"⟩ [] 480 540 500 =
      SeatState.closed ∧
    seat_status ⟨1, 1, "A-1", 0, 0, true, ""⟩
        [⟨1, 2, 1, 480, 540, 1, Status.booked⟩] 480 540 500 =
      SeatState.using ∧
    (∀ b ∈ ([⟨1, 2, 2, 480, 540, 1, Status.booked⟩] : List Booking),
      b.seat_id = 1 → b.status ≠ Status.cancelled →
      overlaps b.start_dt b.end_dt 480 540 = false) :=
  ⟨(c5_seat_status ⟨2, 1, "A-2", 0, 0, false, "repair"⟩ [] 480 540 500).1 rfl,
   by rw [(c5_seat_status ⟨1, 1, "A-1", 0, 0, true, ""⟩
       [⟨1, 2, 1, 480, 540, 1, Status.booked⟩] 480 540 500).2.1 rfl]; rfl,
   ((c5_seat_status ⟨1, 1, "A-1", 0, 0, true, ""⟩
       [⟨1, 2, 2, 480, 540, 1, Status.booked⟩] 480 540 500).2.2 rfl).mp rfl⟩

/-- C1: starting from a store whose non-cancelled bookings are pairwise
disjoint on every seat, any sequence of CreateBooking requests preserves that
disjointness; and once the admin, window, active-booking and seat checks
pass, a request overlapping any non-cancelled booking on the requested seat
is rejected with `SeatConflict`. -/
theorem c1_disjoint (st : Store) :
    (seatDisjoint st → ∀ rs : List BookReq, seatDisjoint (applyBooks rs st)) ∧
    (∀ (user_id seat_id : Nat) (ws we now : Int) (seat : Seat),
      (minute ws % 30 != 0 || minute we % 30 != 0) = false →
      ws < we →
      (activeOfUser user_id now st.bookings).isEmpty = true →
      st.seats.find? (fun s => s.id == seat_id) = some seat →
      seat.is_open = true →
      (∃ b ∈ st.bookings, b.seat_id = seat_id ∧
        b.status ≠ Status.cancelled ∧
        overlaps b.start_dt b.end_dt ws we = true) →
      api_book user_id false seat_id ws we now st =
        Except.error Err.SeatConflict) := by
  constructor
  · intro h rs
    exact seatDisjoint_applyBooks rs st h
  · intro uid sid ws we now seat hmin hlt hact hfind hopen hex
    obtain ⟨b, hb, hbs, hbc, hbo⟩ := hex
    refine api_book_conflict hmin hlt hact hfind hopen ?_
    exact List.any_eq_true.mpr ⟨b, mem_activeOn.mpr ⟨hb, hbs, hbc⟩, hbo⟩

theorem c1_disjoint_witness :
    seatDisjoint (applyBooks
      [⟨1, false, 1, 480, 540, 400⟩, ⟨2, false, 1, 510, 570, 400⟩]
      demoStore) ∧
    api_book 1 false 1 510 570 400 demoStore2 =
      Except.error Err.SeatConflict :=
  ⟨(c1_disjoint demoStore).1 (by intro sid; simp [demoStore, activeOn]) _,
   (c1_disjoint demoStore2).2 1 1 510 570 400 ⟨1, 1, "A-1", 100, 60, true, ""⟩
     (by decide) (by decide) (by decide) rfl rfl
     ⟨⟨1, 2, 1, 480, 540, 1, Status.booked⟩, by simp [demoStore2, demoStore],
       rfl, by decide, by decide⟩⟩

/-- C3: once the admin and window checks pass, a request by a user who owns
any non-cancelled booking ending after `now` — on any seat — is rejected with
`ActiveBookingExists`; and a CreateBooking call preserves the
one-active-booking invariant at every instant from the call time on. -/
theorem c3_one_active :
    (∀ (user_id seat_id : Nat) (ws we now : Int) (st : Store),
      (minute ws % 30 != 0 || minute we % 30 != 0) = false →
      ws < we →
      (∃ b ∈ st.bookings, b.user_id = user_id ∧
        b.status ≠ Status.cancelled ∧ now < b.end_dt) →
      api_book user_id false seat_id ws we now st =
        Except.error Err.ActiveBookingExists) ∧
    (∀ (st : Store) (r : BookReq) (t : Int),
      r.now ≤ t → oneActive t st → oneActive t (applyBook st r)) := by
  constructor
  · intro uid sid ws we now st hmin hlt hex
    obtain ⟨b, hb, hbu, hbs, hbe⟩ := hex
    refine api_book_active hmin hlt ?_
    have hmem : b ∈ activeOfUser uid now st.bookings :=
      mem_activeOfUser.mpr ⟨hb, hbu, hbs, hbe⟩
    rcases h2 : activeOfUser uid now st.bookings with _ | ⟨x, xs⟩
    · rw [h2] at hmem
      cases hmem
    · rfl
  · intro st r t hle h
    exact oneActive_applyBook st r t hle h

theorem c3_one_active_witness :
    api_book 2 false 1 600 630 400 demoStore2 =
      Except.error Err.ActiveBookingExists ∧
    oneActive 400 (applyBook demoStore2 ⟨1, false, 1, 600, 660, 400⟩) :=
  ⟨(c3_one_active).1 2 1 600 630 400 demoStore2 (by decide) (by decide)
     ⟨⟨1, 2, 1, 480, 540, 1, Status.booked⟩, by simp [demoStore2, demoStore],
       rfl, by decide, by decide⟩,
   (c3_one_active).2 demoStore2 ⟨1, false, 1, 600, 660, 400⟩ 400 le_rfl
     (by
       intro uid
       exact le_trans (List.length_filter_le _ _) (by simp [demoStore2, demoStore]))⟩

/-- C10: `api_book` never compares the requested window against `now`: when
the admin, grid-alignment, ordering, active-booking, seat and conflict checks
pass — with no constraint tying the window to `now`, hence also for windows
entirely in the past — the booking succeeds and is persisted with status
`booked`. -/
theorem c10_no_clock_check (user_id seat_id : Nat) (ws we now : Int)
    (st : Store) (seat : Seat)
    (hmin : (minute ws % 30 != 0 || minute we % 30 != 0) = false)
    (hlt : ws < we)
    (hact : (activeOfUser user_id now st.bookings).isEmpty = true)
    (hfind : st.seats.find? (fun s => s.id == seat_id) = some seat)
    (hopen : seat.is_open = true)
    (hconf : (activeOn seat_id st.bookings).any
      (fun b2 => overlaps b2.start_dt b2.end_dt ws we) = false) :
    ∃ st2 b, api_book user_id false seat_id ws we now st =
        Except.ok (st2, b) ∧
      b.status = Status.booked ∧ st2.bookings = st.bookings ++ [b] :=
  ⟨_, _, api_book_ok_of_checks hmin hlt hact hfind hopen hconf, rfl, rfl⟩

theorem c10_no_clock_check_witness :
    (480 : Int) < 540 ∧ (540 : Int) ≤ 1000 ∧
    ∃ st2 b, api_book 1 false 1 480 540 1000 demoStore =
        Except.ok (st2, b) ∧
      b.status = Status.booked ∧ st2.bookings = demoStore.bookings ++ [b] :=
  ⟨by decide, by decide,
   c10_no_clock_check 1 1 480 540 1000 demoStore ⟨1, 1, "A-1", 100, 60, true, ""⟩
     (by decide) (by decide) (by decide) rfl rfl (by decide)⟩

lemma setUsing_ne {bid : Nat} {b : Booking} (h : b.id ≠ bid) :
    setUsing bid b = b := by
  unfold setUsing
  rw [if_neg (by simp [h])]

lemma setUsing_eq {bid : Nat} {b : Booking} (h : b.id = bid) :
    setUsing bid b = { b with status := Status.using } := by
  unfold setUsing
  rw [if_pos (by simp [h])]

lemma setCancelled_ne {bid : Nat} {b : Booking} (h : b.id ≠ bid) :
    setCancelled bid b = b := by
  unfold setCancelled
  rw [if_neg (by simp [h])]

lemma setCancelled_eq {bid : Nat} {b : Booking} (h : b.id = bid) :
    setCancelled bid b = { b with status := Status.cancelled } := by
  unfold setCancelled
  rw [if_pos (by simp [h])]

lemma setCancelled_keeps_id (bid : Nat) (b : Booking) :
    (setCancelled bid b).id = b.id := by
  unfold setCancelled
  split <;> rfl

lemma setCancelled_keeps_user (bid : Nat) (b : Booking) :
    (setCancelled bid b).user_id = b.user_id := by
  unfold setCancelled
  split <;> rfl

lemma setCancelled_idem (bid : Nat) (b : Booking) :
    setCancelled bid (setCancelled bid b) = setCancelled bid b := by
  by_cases h : b.id = bid
  · have h2 : ({ b with status := Status.cancelled } : Booking).id = bid := h
    rw [setCancelled_eq h, setCancelled_eq h2]
  · rw [setCancelled_ne h, setCancelled_ne h]

/-- C6: a successful CreateBooking appends exactly one new booking carrying
the requesting user, the requested seat and window, a token distinct from
every existing booking's token and status `booked`, returns that booking, and
changes nothing else in the store. -/
theorem c6_create (user_id : Nat) (is_admin : Bool) (seat_id : Nat)
    (ws we now : Int) (st st2 : Store) (b : Booking)
    (h : api_book user_id is_admin seat_id ws we now st = Except.ok (st2, b)) :
    st2.bookings = st.bookings ++ [b] ∧
    b.user_id = user_id ∧ b.seat_id = seat_id ∧
    b.start_dt = ws ∧ b.end_dt = we ∧ b.status = Status.booked ∧
    (∀ b2 ∈ st.bookings, b2.token ≠ b.token) ∧
    st2.users = st.users ∧ st2.rooms = st.rooms ∧ st2.seats = st.seats := by
  obtain ⟨-, -, -, -, -, -, hb, hst2⟩ := api_book_ok h
  subst hb
  subst hst2
  exact ⟨rfl, rfl, rfl, rfl, rfl, rfl,
    fun b2 hb2 => token_ne_freshToken hb2, rfl, rfl, rfl⟩

theorem c6_create_witness :
    demoStoreBooked.bookings = demoStore.bookings ++ [demoBooked] ∧
    demoBooked.user_id = 1 ∧ demoBooked.seat_id = 1 ∧
    demoBooked.start_dt = 480 ∧ demoBooked.end_dt = 540 ∧
    demoBooked.status = Status.booked ∧
    (∀ b2 ∈ demoStore.bookings, b2.token ≠ demoBooked.token) ∧
    demoStoreBooked.users = demoStore.users ∧
    demoStoreBooked.rooms = demoStore.rooms ∧
    demoStoreBooked.seats = demoStore.seats :=
  c6_create 1 false 1 480 540 400 demoStore demoStoreBooked demoBooked rfl

/-- C4: `scan` fails with `InvalidToken` exactly when no booking carries the
token; otherwise with `OutsideWindow` exactly when `now` is outside the
inclusive window `[start_dt, end_dt]`; otherwise with `AlreadyCheckedIn`
exactly when the booking is already `using`; in every remaining case —
cancelled bookings included — it sets that booking's status to `using`,
returns its seat id, and leaves every other booking and the rest of the
store unchanged. -/
theorem c4_scan (token : Nat) (now : Int) (st : Store) :
    (st.bookings.find? (fun b => b.token == token) = none →
      scan token now st = Except.error Err.InvalidToken) ∧
    (∀ b, st.bookings.find? (fun b => b.token == token) = some b →
      ¬(b.start_dt ≤ now ∧ now ≤ b.end_dt) →
      scan token now st = Except.error Err.OutsideWindow) ∧
    (∀ b, st.bookings.find? (fun b => b.token == token) = some b →
      (b.start_dt ≤ now ∧ now ≤ b.end_dt) → b.status = Status.using →
      scan token now st = Except.error Err.AlreadyCheckedIn) ∧
    (∀ b, st.bookings.find? (fun b => b.token == token) = some b →
      (b.start_dt ≤ now ∧ now ≤ b.end_dt) → b.status ≠ Status.using →
      ∃ st2, scan token now st = Except.ok (b.seat_id, st2) ∧
        st2.users = st.users ∧ st2.rooms = st.rooms ∧ st2.seats = st.seats ∧
        st2.bookings.length = st.bookings.length ∧
        (∀ b2 ∈ st.bookings, b2.id ≠ b.id → b2 ∈ st2.bookings) ∧
        (∀ b2 ∈ st.bookings, b2.id = b.id →
          { b2 with status := Status.using } ∈ st2.bookings)) := by
  refine ⟨?_, ?_, ?_, ?_⟩
  · intro hfind
    unfold scan
    rw [hfind]
  · intro b hfind hwin
    unfold scan
    rw [hfind]
    have hcond : (!(decide (b.start_dt ≤ now) && decide (now ≤ b.end_dt))) = true := by
      by_cases h1 : b.start_dt ≤ now
      · have h2 : ¬ now ≤ b.end_dt := fun h2 => hwin ⟨h1, h2⟩
        simp [h2]
      · simp [h1]
    simp only [hcond, if_true]
  · intro b hfind hwin husing
    unfold scan
    rw [hfind]
    have hcond : (!(decide (b.start_dt ≤ now) && decide (now ≤ b.end_dt))) = false := by
      simp [hwin.1, hwin.2]
    simp only [hcond, Bool.false_eq_true, if_false]
    rw [if_pos (by simp [husing])]
  · intro b hfind hwin husing
    unfold scan
    rw [hfind]
    have hcond : (!(decide (b.start_dt ≤ now) && decide (now ≤ b.end_dt))) = false := by
      simp [hwin.1, hwin.2]
    simp only [hcond, Bool.false_eq_true, if_false]
    rw [if_neg (by simp [husing])]
    refine ⟨{ st with bookings := st.bookings.map (setUsing b.id) }, rfl,
      rfl, rfl, rfl, by simp, ?_, ?_⟩
    · intro b2 hb2 hne
      have hkeep : setUsing b.id b2 = b2 := setUsing_ne (by omega)
      exact hkeep ▸ List.mem_map_of_mem _ hb2
    · intro b2 hb2 heq
      have hupd : setUsing b.id b2 = { b2 with status := Status.using } :=
        setUsing_eq heq
      exact hupd ▸ List.mem_map_of_mem _ hb2

theorem c4_scan_witness :
    scan 99 500 demoStore2 = Except.error Err.InvalidToken ∧
    scan 1 479 demoStore2 = Except.error Err.OutsideWindow ∧
    scan 1 500 demoStoreUsing = Except.error Err.AlreadyCheckedIn ∧
    (∃ st2, scan 1 540 demoStoreCancelled =
        Except.ok ((⟨1, 2, 1, 480, 540, 1, Status.cancelled⟩ : Booking).seat_id, st2) ∧
      st2.users = demoStoreCancelled.users ∧
      st2.rooms = demoStoreCancelled.rooms ∧
      st2.seats = demoStoreCancelled.seats ∧
      st2.bookings.length = demoStoreCancelled.bookings.length ∧
      (∀ b2 ∈ demoStoreCancelled.bookings,
        b2.id ≠ (⟨1, 2, 1, 480, 540, 1, Status.cancelled⟩ : Booking).id →
        b2 ∈ st2.bookings) ∧
      (∀ b2 ∈ demoStoreCancelled.bookings,
        b2.id = (⟨1, 2, 1, 480, 540, 1, Status.cancelled⟩ : Booking).id →
        { b2 with status := Status.using } ∈ st2.bookings)) :=
  ⟨(c4_scan 99 500 demoStore2).1 rfl,
   (c4_scan 1 479 demoStore2).2.1 ⟨1, 2, 1, 480, 540, 1, Status.booked⟩ rfl
     (by decide),
   (c4_scan 1 500 demoStoreUsing).2.2.1 ⟨1, 2, 1, 480, 540, 1, Status.using⟩ rfl
     ⟨by decide, by decide⟩ rfl,
   (c4_scan 1 540 demoStoreCancelled).2.2.2 ⟨1, 2, 1, 480, 540, 1, Status.cancelled⟩
     rfl ⟨by decide, by decide⟩ (by decide)⟩

/-- C7: `cancel` rejects with `NotOwner` both when no booking has the id and
when the booking belongs to another user; otherwise it sets the booking's
status to `cancelled` whatever its prior status was, leaves everything else
unchanged, and running it again on the result returns the very same store
(idempotence). -/
theorem c7_cancel (bid user_id : Nat) (st : Store) :
    (st.bookings.find? (fun b => b.id == bid) = none →
      cancel bid user_id st = Except.error Err.NotOwner) ∧
    (∀ b, st.bookings.find? (fun b => b.id == bid) = some b →
      b.user_id ≠ user_id → cancel bid user_id st = Except.error Err.NotOwner) ∧
    (∀ b, st.bookings.find? (fun b => b.id == bid) = some b →
      b.user_id = user_id →
      ∃ st2, cancel bid user_id st = Except.ok st2 ∧
        st2.users = st.users ∧ st2.rooms = st.rooms ∧ st2.seats = st.seats ∧
        st2.bookings.length = st.bookings.length ∧
        (∀ b2 ∈ st.bookings, b2.id ≠ bid → b2 ∈ st2.bookings) ∧
        (∀ b2 ∈ st.bookings, b2.id = bid →
          { b2 with status := Status.cancelled } ∈ st2.bookings) ∧
        cancel bid user_id st2 = Except.ok st2) := by
  refine ⟨?_, ?_, ?_⟩
  · intro hfind
    unfold cancel
    rw [hfind]
  · intro b hfind huser
    unfold cancel
    rw [hfind]
    have hcond : (!(b.user_id == user_id)) = true := by simp [huser]
    simp only [hcond, if_true]
  · intro b hfind huser
    refine ⟨{ st with bookings := st.bookings.map (setCancelled bid) }, ?_,
      rfl, rfl, rfl, by simp, ?_, ?_, ?_⟩
    · unfold cancel
      rw [hfind]
      have hcond : (!(b.user_id == user_id)) = false := by simp [huser]
      simp only [hcond, Bool.false_eq_true, if_false]
    · intro b2 hb2 hne
      exact setCancelled_ne hne ▸ List.mem_map_of_mem _ hb2
    · intro b2 hb2 heq
      exact setCancelled_eq heq ▸ List.mem_map_of_mem _ hb2
    · have hpf : ((fun b3 : Booking => b3.id == bid) ∘ setCancelled bid) =
          (fun b3 : Booking => b3.id == bid) := by
        funext x
        simp [Function.comp, setCancelled_keeps_id]
      have hfind2 : (st.bookings.map (setCancelled bid)).find?
          (fun b3 => b3.id == bid) = some (setCancelled bid b) := by
        rw [List.find?_map, hpf, hfind]
        rfl
      have hmm : (st.bookings.map (setCancelled bid)).map (setCancelled bid) =
          st.bookings.map (setCancelled bid) := by
        rw [List.map_map]
        congr 1
        funext x
        simp [Function.comp, setCancelled_idem]
      unfold cancel
      show (match (st.bookings.map (setCancelled bid)).find?
          (fun b3 => b3.id == bid) with
        | none => Except.error Err.NotOwner
        | some b3 =>
          if !(b3.user_id == user_id) then Except.error Err.NotOwner
          else Except.ok { st with bookings :=
            (st.bookings.map (setCancelled bid)).map (setCancelled bid) }) = _
      rw [hfind2]
      have hcond : (!((setCancelled bid b).user_id == user_id)) = false := by
        simp [setCancelled_keeps_user, huser]
      simp only [hcond, Bool.false_eq_true, if_false, hmm]

theorem c7_cancel_witness :
    cancel 9 2 demoStore2 = Except.error Err.NotOwner ∧
    cancel 1 3 demoStore2 = Except.error Err.NotOwner ∧
    (∃ st2, cancel 1 2 demoStore2 = Except.ok st2 ∧
      st2.users = demoStore2.users ∧ st2.rooms = demoStore2.rooms ∧
      st2.seats = demoStore2.seats ∧
      st2.bookings.length = demoStore2.bookings.length ∧
      (∀ b2 ∈ demoStore2.bookings, b2.id ≠ 1 → b2 ∈ st2.bookings) ∧
      (∀ b2 ∈ demoStore2.bookings, b2.id = 1 →
        { b2 with status := Status.cancelled } ∈ st2.bookings) ∧
      cancel 1 2 st2 = Except.ok st2) :=
  ⟨(c7_cancel 9 2 demoStore2).1 rfl,
   (c7_cancel 1 3 demoStore2).2.1 ⟨1, 2, 1, 480, 540, 1, Status.booked⟩ rfl
     (by decide),
   (c7_cancel 1 2 demoStore2).2.2 ⟨1, 2, 1, 480, 540, 1, Status.booked⟩ rfl rfl⟩

/-- C8: `set_seat_state` overwrites the named seat's open flag and note and
modifies nothing else: bookings, users, rooms, the number of seats, every
other seat, and the named seat's remaining fields are unchanged. -/
theorem c8_set_seat_state (seat_id : Nat) (is_open : Bool) (note : String)
    (st : Store) :
    (set_seat_state seat_id is_open note st).users = st.users ∧
    (set_seat_state seat_id is_open note st).rooms = st.rooms ∧
    (set_seat_state seat_id is_open note st).bookings = st.bookings ∧
    (set_seat_state seat_id is_open note st).seats.length = st.seats.length ∧
    (∀ s ∈ st.seats, s.id ≠ seat_id →
      s ∈ (set_seat_state seat_id is_open note st).seats) ∧
    (∀ s ∈ st.seats, s.id = seat_id →
      { s with is_open := is_open, note := note } ∈
        (set_seat_state seat_id is_open note st).seats) := by
  refine ⟨rfl, rfl, rfl, by simp [set_seat_state], ?_, ?_⟩
  · intro s hs hne
    exact List.mem_map.mpr ⟨s, hs, by simp [hne]⟩
  · intro s hs heq
    exact List.mem_map.mpr ⟨s, hs, by simp [heq]⟩

theorem c8_set_seat_state_witness :
    (set_seat_state 1 false "maintenance" demoStore2).users =
      demoStore2.users ∧
    (set_seat_state 1 false "maintenance" demoStore2).bookings =
      demoStore2.bookings ∧
    (⟨1, 1, "A-1", 100, 60, false, "maintenance"⟩ : Seat) ∈
      (set_seat_state 1 false "maintenance" demoStore2).seats :=
  ⟨(c8_set_seat_state 1 false "maintenance" demoStore2).1,
   (c8_set_seat_state 1 false "maintenance" demoStore2).2.2.1,
   (c8_set_seat_state 1 false "maintenance" demoStore2).2.2.2.2.2
     ⟨1, 1, "A-1", 100, 60, true, ""⟩ (by simp [demoStore2, demoStore]) rfl⟩
